import Mathlib

/-!
Verification of the conversation-to-markdown converter (`to_markdown.py`).

The development shallowly embeds the core of `to_markdown.py`:
`extract_message_content`, `adjust_headings`, `build_turns` (root lookup,
tree traversal, turn partitioning) and the derived-metadata computation of
`generate_markdown`.

Modelling conventions:
- JSON values are modelled by the inductive type `JValue`; JSON numbers are
  modelled as integers (the timestamps of interest are epoch seconds).
- A Python `dict` holding JSON data is modelled as an association list
  `PyDict`; key lookup takes the first matching key, and `dict.get`
  collapses a stored JSON `null` and an absent key to the same Python
  `None`, which is modelled by `JValue.null`.
- Python strings are modelled by `String` / `List Char`; `str.strip()` and
  `str.lstrip()` are modelled over the ASCII whitespace characters that
  Python strips (space, tab, newline, carriage return, vertical tab,
  form feed).
- Fallible Python code (attribute errors on non-dict values, unhashable
  values used in a set-membership test) is modelled in `Except Unit`:
  `Except.error ()` models a raised exception.
-/

namespace ToMarkdown

/-- JSON values (numbers modelled as integers). -/
inductive JValue where
  | null : JValue
  | bool : Bool → JValue
  | num : Int → JValue
  | str : String → JValue
  | arr : List JValue → JValue
  | obj : List (String × JValue) → JValue

/-- A Python dict holding JSON data: an association list (insertion order). -/
abbrev PyDict := List (String × JValue)

/-- `d.get(k)`: the stored value, or Python `None` (= `JValue.null`) when the
key is absent.  A stored JSON `null` and an absent key are indistinguishable
at the Python level, and both are modelled by `JValue.null`. -/
def pyGet (d : PyDict) (k : String) : JValue :=
  (d.lookup k).getD JValue.null

/-- `d.get(k, default)`: the stored value when the key is present (including a
stored `null`), the default otherwise. -/
def pyGetD (d : PyDict) (k : String) (v : JValue) : JValue :=
  (d.lookup k).getD v

/-- Python truthiness of a JSON value. -/
def jTruthy : JValue → Bool
  | JValue.null => false
  | JValue.bool b => b
  | JValue.num n => n != 0
  | JValue.str s => s != ""
  | JValue.arr l => !l.isEmpty
  | JValue.obj f => !f.isEmpty

/-- The whitespace characters stripped by Python's `str.strip()` /
`str.lstrip()` (restricted to ASCII, which covers all inputs of interest). -/
def pyIsSpaceChar (c : Char) : Bool :=
  c == ' ' || c == '\t' || c == '\n' || c == '\r' ||
  c == Char.ofNat 11 || c == Char.ofNat 12

/-- `line.lstrip()` on a list of characters. -/
def pyLstrip (l : List Char) : List Char :=
  l.dropWhile pyIsSpaceChar

/-- `s.strip()` on a list of characters. -/
def pyStripList (l : List Char) : List Char :=
  ((l.dropWhile pyIsSpaceChar).reverse.dropWhile pyIsSpaceChar).reverse

/-- `s.strip()` on a string. -/
def pyStrip (s : String) : String :=
  String.mk (pyStripList s.data)

/-- The whitelist `ALLOWED_CONTENT_TYPES` of `extract_message_content`. -/
def ALLOWED_CONTENT_TYPES : List String :=
  ["text", "code", "multimodal_text", "reasoning_recap", "thoughts"]

/-- The set `SILENT_SKIP_TYPES` of `extract_message_content`. -/
def SILENT_SKIP_TYPES : List String :=
  ["user_editable_context", "app_pairing_content"]

/-- Step 3 scan of `extract_message_content`: the first element of `parts`
that is a string with non-whitespace content, trimmed; `none` when no element
qualifies. -/
def firstStrPart : List JValue → Option String
  | [] => none
  | JValue.str s :: rest =>
      if pyStrip s ≠ "" then some (pyStrip s) else firstStrPart rest
  | _ :: rest => firstStrPart rest

/-- Step 4 of `extract_message_content`: the `text` fallback.
`if text and isinstance(text, str) and text.strip(): return text.strip()`,
otherwise return the empty string. -/
def textFallback : JValue → Option String
  | JValue.str s =>
      if s ≠ "" ∧ pyStrip s ≠ "" then some (pyStrip s) else some ""
  | _ => some ""

/-- Steps 3–5 of `extract_message_content`: extraction from `parts` with the
`text` fallback.  `none` is the skip signal (Python `None`); `some s` is a
returned string. -/
def extractPartsText (c : PyDict) : Option String :=
  match pyGet c "parts" with
  | JValue.null => textFallback (pyGet c "text")
  | JValue.arr xs => if xs.isEmpty then none else firstStrPart xs
  | _ => none

/-- Step 2 of `extract_message_content`, given the content mapping `c`:
the two `content_type` guards, then steps 3–5.  Each guard tests
`content_type and content_type in/not in <set of strings>`: a falsy
`content_type` (`None`, `""`, `0`, `False`, empty array/object) passes both
guards; a truthy string is skipped unless allowed; any other truthy
hashable value (number, `True`) fails the whitelist and is skipped; a
truthy unhashable value (non-empty JSON array or object) raises a
`TypeError` in the set-membership test, modelled by `Except.error ()`. -/
def extractFromContent (c : PyDict) : Except Unit (Option String) :=
  match pyGet c "content_type" with
  | JValue.str s =>
      if s = "" then Except.ok (extractPartsText c)
      else if s ∈ SILENT_SKIP_TYPES then Except.ok none
      else if s ∉ ALLOWED_CONTENT_TYPES then Except.ok none
      else Except.ok (extractPartsText c)
  | JValue.arr xs =>
      if xs.isEmpty then Except.ok (extractPartsText c)
      else Except.error ()
  | JValue.obj fs =>
      if fs.isEmpty then Except.ok (extractPartsText c)
      else Except.error ()
  | JValue.bool b =>
      if b then Except.ok none else Except.ok (extractPartsText c)
  | JValue.num n =>
      if n = 0 then Except.ok (extractPartsText c) else Except.ok none
  | JValue.null => Except.ok (extractPartsText c)

/-- `extract_message_content(message)` of `to_markdown.py`.
`Except.error ()` models a raised exception: an `AttributeError` when the
stored `content` value is neither absent nor a mapping, and a `TypeError`
from `extractFromContent`.  `Except.ok none` is the skip signal
(Python `None`); `Except.ok (some s)` is a returned string. -/
def extract_message_content (message : PyDict) : Except Unit (Option String) :=
  match pyGetD message "content" (JValue.obj []) with
  | JValue.obj c => extractFromContent c
  | _ => Except.error ()

/-- An entry of the flat list `messages` collected by `build_turns`:
`{'node_id': ..., 'role': ..., 'message': ..., 'children': ...}`. -/
structure Entry where
  node_id : String
  role : String
  message : PyDict
  children : List String
deriving Inhabited

/-- A Turn built by `build_turns`:
`{'turn_number': ..., 'user': ..., 'assistants': [...]}`. -/
structure Turn where
  turn_number : Nat
  user : Entry
  assistants : List Entry
deriving Inhabited

/-- A node of the conversation `mapping`, per the input schema:
`{parent: string|null, children: [string], message: Message|null}`. -/
structure Node where
  parent : Option String
  children : List String
  message : Option PyDict

/-- Step 3 of `build_turns`: the `while` loop that partitions the flat
message list into Turns.  The loop consumes at least one list element per
iteration, so the list length bounds the number of iterations; the fuel
argument makes the recursion structural and `partitionTurns` supplies the
exact bound. -/
def partitionTurnsAux : Nat → List Entry → Nat → List Turn
  | 0, _, _ => []
  | _, [], _ => []
  | Nat.succ fuel, m :: rest, k =>
      if m.role == "user" then
        let branch := rest.takeWhile (fun e => e.role == "assistant")
        let rest2 := rest.dropWhile (fun e => e.role == "assistant")
        { turn_number := k, user := m, assistants := branch } ::
          partitionTurnsAux fuel rest2 (k + 1)
      else
        partitionTurnsAux fuel rest k

/-- Step 3 of `build_turns`: partition the flat message list into Turns,
numbering them with the count of Turns already created (0-based). -/
def partitionTurns (messages : List Entry) : List Turn :=
  partitionTurnsAux messages.length messages 0

/-- `message.get('author', {}).get('role')`: raises when the stored `author`
value is neither absent nor a mapping. -/
def msgRole (m : PyDict) : Except Unit JValue :=
  match pyGetD m "author" (JValue.obj []) with
  | JValue.obj a => Except.ok (pyGet a "role")
  | _ => Except.error ()

/-- The per-node body of `traverse`: the entries contributed by one node's
own message (`[]` or a singleton), or a raised exception. -/
def nodeEntries (node_id : String) (node : Node) : Except Unit (List Entry) :=
  match node.message with
  | none => Except.ok []
  | some m =>
      if m.isEmpty then Except.ok []
      else
        match msgRole m with
        | Except.error e => Except.error e
        | Except.ok (JValue.str s) =>
            if s == "user" || s == "assistant" then
              match extract_message_content m with
              | Except.error e => Except.error e
              | Except.ok none => Except.ok []
              | Except.ok (some _) =>
                  Except.ok [{ node_id := node_id, role := s, message := m,
                               children := node.children }]
            else Except.ok []
        | Except.ok _ => Except.ok []

/-- The recursive `traverse` of `build_turns`, as a depth-fuelled recursion:
each child call runs with one unit of fuel less, exactly mirroring the
Python recursion depth.  On an acyclic mapping the recursion depth is at
most the number of nodes, so the fuel supplied by `build_turns` is never
exhausted there; a cyclic mapping (on which the Python code would raise
`RecursionError`) is outside the modelled domain. -/
def traverseNode (mapping : List (String × Node)) : Nat → String → Except Unit (List Entry)
  | 0, _ => Except.ok []
  | Nat.succ fuel, node_id =>
      match mapping.lookup node_id with
      | none => Except.ok []
      | some node =>
          match nodeEntries node_id node with
          | Except.error e => Except.error e
          | Except.ok here =>
              node.children.foldl
                (fun acc cid =>
                  match acc with
                  | Except.error e => Except.error e
                  | Except.ok xs =>
                      match traverseNode mapping fuel cid with
                      | Except.error e => Except.error e
                      | Except.ok ys => Except.ok (xs ++ ys))
                (Except.ok here)

/-- Step 1 of `build_turns`: the first node of the mapping (in insertion
order) whose `parent` is `None`. -/
def rootId (mapping : List (String × Node)) : Option String :=
  (mapping.find? (fun p => p.2.parent.isNone)).map (fun p => p.1)

/-- `build_turns(mapping)` of `to_markdown.py`.  `Except.error ()` models an
exception raised by `extract_message_content` during the traversal. -/
def build_turns (mapping : List (String × Node)) : Except Unit (List Turn) :=
  match rootId mapping with
  | none => Except.ok []
  | some rid =>
      match traverseNode mapping (mapping.length + 1) rid with
      | Except.error e => Except.error e
      | Except.ok messages => Except.ok (partitionTurns messages)

/-- `text.split('\n')` on a list of characters.  The result is always
non-empty; splitting the empty list gives `[[]]`. -/
def splitOnNl : List Char → List (List Char)
  | [] => [[]]
  | c :: rest =>
      if c = '\n' then [] :: splitOnNl rest
      else
        match splitOnNl rest with
        | [] => [[c]]
        | l :: ls => (c :: l) :: ls

/-- `'\n'.join(lines)` on lists of characters. -/
def joinNl : List (List Char) → List Char
  | [] => []
  | [l] => l
  | l :: ls => l ++ '\n' :: joinNl ls

/-- The per-line body of `adjust_headings`: demote one markdown heading
line (count the leading `#` of the left-stripped line, prepend one more
`#`, keep the original indentation). -/
def adjustLine (line : List Char) : List Char :=
  let stripped := pyLstrip line
  if stripped.head? = some '#' then
    let level := (stripped.takeWhile (fun c => c == '#')).length
    let rest := stripped.drop level
    let indent := line.take (line.length - stripped.length)
    indent ++ (List.replicate (level + 1) '#' ++ rest)
  else line

/-- `adjust_headings(text)` of `to_markdown.py`, on a list of characters. -/
def adjust_headings (text : List Char) : List Char :=
  if text.isEmpty then text
  else joinNl ((splitOnNl text).map adjustLine)

/-- `adjust_headings` on a `String`. -/
def adjustHeadingsStr (s : String) : String :=
  String.mk (adjust_headings s.data)

/-- The `create_time` of a message dict, as an optional epoch number.
Per the input schema (§6) `create_time` is `number|null`; a stored `null`
and an absent key are both Python `None`. -/
def msgCreateTime (m : PyDict) : Option Int :=
  match pyGet m "create_time" with
  | JValue.num n => some n
  | _ => none

/-- Step 4 of `generate_markdown`: the `reversed(turns)` loop.  Both of its
branches `break` on the first iteration, so only the final Turn is
inspected: the last assistant branch's `create_time` when the branch list
is truthy (non-empty), the user message's `create_time` otherwise.
`none` (the loop never running, `last_message_time = None`) occurs only for
an empty Turn list. -/
def lastMessageTime (turns : List Turn) : Option Int :=
  match turns.reverse with
  | [] => none
  | t :: _ =>
      match t.assistants.reverse with
      | a :: _ => msgCreateTime a.message
      | [] => msgCreateTime t.user.message

/-- Step 5 of `generate_markdown`:
`duration_days = 0`, and
`if first_message_time and last_message_time: duration_days =
int((last_message_time - first_message_time) / 86400)`.
Python truthiness makes both `None` and `0` fall to the default `0`, and
`int(x / 86400)` truncates toward zero, which on integral epoch values is
`Int.tdiv`. -/
def durationDays (first last : Option Int) : Int :=
  match first, last with
  | some f, some l => if f ≠ 0 ∧ l ≠ 0 then Int.tdiv (l - f) 86400 else 0
  | _, _ => 0

/-- `actual_turn_count = len([t for t in turns if t['turn_number'] > 0])`. -/
def turnCount (turns : List Turn) : Nat :=
  (turns.filter (fun t => decide (t.turn_number > 0))).length

/-- The body-loop gate of `generate_markdown`: a Turn is skipped only when
its number is 0 and its user message's content extracts to the skip signal.
Turns built by `build_turns` always carry a user message whose extraction
succeeded with a string, so the exception branch of the extractor cannot
fire here; it is modelled as rendering. -/
def renderGate (t : Turn) : Bool :=
  if t.turn_number = 0 then
    match extract_message_content t.user.message with
    | Except.ok none => false
    | _ => true
  else true

/-- The Turns that produce a section in the rendered body. -/
def renderedTurns (turns : List Turn) : List Turn :=
  turns.filter renderGate

/-- The conversation-level fields of the input record (§6):
`{title, create_time, update_time, mapping}`. -/
structure ConvRecord where
  title : String
  create_time : Option Int
  update_time : Option Int
  mapping : List (String × Node)

/-- The derived data of the document assembled by `generate_markdown`:
the metadata-block values (`first-message-date`, `last-message-date`,
`duration-days`, `turn-count`) in their underlying representation, the Turn
sequence, and the Turns rendered in the body.  Timestamp display formatting
and the literal markdown text are not modelled. -/
structure DocModel where
  title : String
  first_message_time : Option Int
  last_message_time : Option Int
  duration_days : Int
  turn_count : Nat
  turns : List Turn
  body : List Turn
deriving Inhabited

/-- The computational core of `generate_markdown` (steps 2–8), after the
input JSON has been loaded.  `Except.ok none` models the soft-failure path:
`build_turns` produced no Turns, a warning is printed, the function returns
the empty string and no output file is written.  `Except.ok (some doc)`
models a successful conversion producing a document.  `Except.error ()`
models an exception raised during the traversal. -/
def generate_markdown_core (record : ConvRecord) : Except Unit (Option DocModel) :=
  match build_turns record.mapping with
  | Except.error e => Except.error e
  | Except.ok turns =>
      if turns.isEmpty then Except.ok none
      else
        Except.ok (some
          { title := record.title
            first_message_time := record.create_time
            last_message_time := lastMessageTime turns
            duration_days := durationDays record.create_time (lastMessageTime turns)
            turn_count := turnCount turns
            turns := turns
            body := renderedTurns turns })

/-- The document produced by a successful conversion, for building concrete
witnesses (`default` is never reached on the records used below). -/
def getDoc (record : ConvRecord) : DocModel :=
  match generate_markdown_core record with
  | Except.ok (some doc) => doc
  | _ => default

/-- Whether an extraction result models a non-raising Python call. -/
def isOkResult : Except Unit (Option String) → Bool
  | Except.ok _ => true
  | Except.error _ => false

/-- Whether a `content_type` value survives the set-membership tests
without raising: everything except a truthy unhashable value (a non-empty
JSON array or object). -/
def ctypeHashable : JValue → Bool
  | JValue.arr xs => xs.isEmpty
  | JValue.obj fs => fs.isEmpty
  | _ => true

/-- The message shapes on which `extract_message_content` performs no
raising operation: the stored `content` value is absent or a mapping, and
its `content_type` is not a truthy unhashable value. -/
def contentOk (message : PyDict) : Bool :=
  match pyGetD message "content" (JValue.obj []) with
  | JValue.obj c => ctypeHashable (pyGet c "content_type")
  | _ => false

/-- The `content_type` values that reach the `parts`/`text` extraction
(steps 3–5): falsy values, and allowed content-type strings. -/
def ctypePasses : JValue → Bool
  | JValue.null => true
  | JValue.bool b => !b
  | JValue.num n => n == 0
  | JValue.str s => s == "" || ALLOWED_CONTENT_TYPES.contains s
  | JValue.arr xs => xs.isEmpty
  | JValue.obj fs => fs.isEmpty

/-- Modelled from the spec wording of the `parts` scan: the first element
that is a string with non-whitespace content, trimmed. -/
def claimFirstPart (xs : List JValue) : Option String :=
  (xs.find? (fun p =>
      match p with
      | JValue.str s => decide (pyStrip s ≠ "")
      | _ => false)).map (fun p =>
    match p with
    | JValue.str s => pyStrip s
    | _ => "")

/-- Modelled from the spec wording of the `text` fallback: the trimmed
`text` field when it is a non-empty string, otherwise the empty string. -/
def claimTextResult : JValue → String
  | JValue.str s => if s ≠ "" then pyStrip s else ""
  | _ => ""

/-- A strictly alternating flat message list `[u₁, a₁, u₂, a₂, …]`
presented as its list of user/assistant pairs. -/
def flatPairs : List (Entry × Entry) → List Entry
  | [] => []
  | (u, a) :: rest => u :: a :: flatPairs rest

/-- Modelled from the spec wording of strict alternation: Turn `k + i` pairs
the `i`-th user entry with exactly its one following assistant entry. -/
def expectedTurns : List (Entry × Entry) → Nat → List Turn
  | [], _ => []
  | (u, a) :: rest, k =>
      { turn_number := k, user := u, assistants := [a] } :: expectedTurns rest (k + 1)

/-- A user message dict with the given text and creation time. -/
def mkUserMsg (txt : String) (ct : Int) : PyDict :=
  [("author", JValue.obj [("role", JValue.str "user")]),
   ("content", JValue.obj [("content_type", JValue.str "text"),
                           ("parts", JValue.arr [JValue.str txt])]),
   ("create_time", JValue.num ct)]

/-- An assistant message dict with the given text and creation time. -/
def mkAsstMsg (txt : String) (ct : Int) : PyDict :=
  [("author", JValue.obj [("role", JValue.str "assistant")]),
   ("content", JValue.obj [("content_type", JValue.str "text"),
                           ("parts", JValue.arr [JValue.str txt])]),
   ("create_time", JValue.num ct),
   ("metadata", JValue.obj [("model_slug", JValue.str "gpt-4o")])]

/-- A mapping with two parentless nodes (`r1` and `r2`); the chain under
`r1` carries one user message. -/
def twoRootsMapping : List (String × Node) :=
  [("r1", { parent := none, children := ["u1"], message := none }),
   ("u1", { parent := some "r1", children := [], message := some (mkUserMsg "Hello" 1000) }),
   ("r2", { parent := none, children := [], message := none })]

/-- A mapping with no parentless node. -/
def noRootMapping : List (String × Node) :=
  [("a", { parent := some "a", children := [], message := none })]

/-- A conversation: root → user("Hello") → assistant("Hi"). -/
def mkRecord (createTime : Option Int) (userCt asstCt : Int) : ConvRecord :=
  { title := "Test"
    create_time := createTime
    update_time := some 5000
    mapping :=
      [("root", { parent := none, children := ["u1"], message := none }),
       ("u1", { parent := some "root", children := ["a1"],
                message := some (mkUserMsg "Hello" userCt) }),
       ("a1", { parent := some "u1", children := [],
                message := some (mkAsstMsg "Hi" asstCt) })] }

/-- A conversation whose record-level `create_time` is the epoch value `0`
(present but falsy) and whose last message is one day later. -/
def recordZeroStart : ConvRecord := mkRecord (some 0) 43200 86400

/-- A conversation whose last message predates the record-level
`create_time` (both truthy). -/
def recordBackwards : ConvRecord := mkRecord (some 100) 40 50

/-- The end-to-end conversation of §8: `create_time = 1000`, user at 1000,
assistant at 1100. -/
def recordTest : ConvRecord := mkRecord (some 1000) 1000 1100

/-- A record with an empty mapping: `build_turns` yields no Turns. -/
def emptyRecord : ConvRecord :=
  { title := "Empty", create_time := none, update_time := none, mapping := [] }

/-- A content dict whose `parts` key is present and holds JSON `null`,
next to a non-empty `text` field. -/
def nullPartsContent : PyDict :=
  [("content_type", JValue.str "text"), ("parts", JValue.null),
   ("text", JValue.str " hi ")]

/-- A message whose `content` value is a string, not a mapping. -/
def strContentMsg : PyDict := [("content", JValue.str "hi")]

/-- A malformed message: `parts` is a number, `author` missing. -/
def numPartsMsg : PyDict := [("content", JValue.obj [("parts", JValue.num 3)])]

/-- A content dict with no `content_type`, a non-string first parts element
and a qualifying second element. -/
def noTypeContent : PyDict :=
  [("parts", JValue.arr [JValue.num 1, JValue.str "  hello "])]

/-- A message whose content is `noTypeContent`. -/
def noTypeMsg : PyDict := [("content", JValue.obj noTypeContent)]

/-- A message whose content is `nullPartsContent`. -/
def nullPartsMsg : PyDict := [("content", JValue.obj nullPartsContent)]

/-- A user entry for alternation tests. -/
def uEntry : Entry :=
  { node_id := "u1", role := "user", message := mkUserMsg "Hello" 1000, children := ["a1"] }

/-- An assistant entry for alternation tests. -/
def aEntry : Entry :=
  { node_id := "a1", role := "assistant", message := mkAsstMsg "Hi" 1100, children := [] }

/-- The single Turn produced for `recordTest`. -/
def tTest : Turn := ((getDoc recordTest).turns.head?).getD default

/-- The single assistant branch of `tTest`. -/
def aTest : Entry := (tTest.assistants.getLast?).getD default


theorem extract_content_obj (m : PyDict) (c : PyDict)
    (h : pyGetD m "content" (JValue.obj []) = JValue.obj c) :
    extract_message_content m = extractFromContent c := by
  unfold extract_message_content
  rw [h]

theorem extractFromContent_ok (c : PyDict)
    (h : ctypeHashable (pyGet c "content_type") = true) :
    isOkResult (extractFromContent c) = true := by
  unfold ctypeHashable at h
  unfold extractFromContent
  cases hct : pyGet c "content_type" <;> rw [hct] at h <;> simp only []
  case null => rfl
  case bool b => cases b <;> rfl
  case num n => by_cases hn : n = 0 <;> simp [hn, isOkResult]
  case str s =>
    by_cases h1 : s = ""
    · simp [h1, isOkResult]
    · by_cases h2 : s ∈ SILENT_SKIP_TYPES
      · simp [h1, h2, isOkResult]
      · by_cases h3 : s ∈ ALLOWED_CONTENT_TYPES <;> simp [h1, h2, h3, isOkResult]
  case arr xs => simp at h; simp [h, isOkResult]
  case obj fs => simp at h; simp [h, isOkResult]

/-- C2 (amended): `extract_message_content` never raises provided the stored
`content` value is absent or a mapping and its `content_type` is not a truthy
unhashable value; within these shapes every payload degrades to a skip signal
or a string result.  The original claim (never raises on any message) is
false: a non-mapping `content` value raises `AttributeError`. -/
theorem C2_theorem (m : PyDict) (h : contentOk m = true) :
    isOkResult (extract_message_content m) = true := by
  unfold contentOk at h
  cases hc : pyGetD m "content" (JValue.obj []) <;> rw [hc] at h <;> try simp at h
  case obj c =>
    rw [extract_content_obj m c hc]
    exact extractFromContent_ok c h

/-- C2 is false as stated: a message whose `content` field holds a string is
malformed, and the extractor raises (`content.get` on a non-dict) instead of
returning a skip signal. -/
theorem C2_counterexample : extract_message_content strContentMsg = Except.error () := rfl

/-- C2 witness: a malformed message with a numeric `parts` and no `author`
still extracts without raising. -/
theorem C2_witness : isOkResult (extract_message_content numPartsMsg) = true :=
  C2_theorem numPartsMsg rfl

/-- C10: a message whose content carries no content_type at all (the field
absent or null, both Python None) is neither unrecognized nor silently
skipped: extraction proceeds to the normal parts/text path. -/
theorem C10_theorem (m : PyDict) (c : PyDict)
    (h1 : pyGetD m "content" (JValue.obj []) = JValue.obj c)
    (h2 : pyGet c "content_type" = JValue.null) :
    extract_message_content m = Except.ok (extractPartsText c) := by
  rw [extract_content_obj m c h1]
  unfold extractFromContent
  rw [h2]

/-- C10 witness: a content dict without content_type whose parts hold a
number then a string extracts the string, trimmed. -/
theorem C10_witness :
    extract_message_content noTypeMsg = Except.ok (some "hello") :=
  C10_theorem noTypeMsg noTypeContent rfl rfl

theorem firstStrPart_eq_claim (xs : List JValue) : firstStrPart xs = claimFirstPart xs := by
  induction xs with
  | nil => rfl
  | cons x rest ih =>
    cases x <;> simp [firstStrPart, claimFirstPart, List.find?] <;>
      simp [claimFirstPart] at ih
    case str s =>
      by_cases hs : pyStrip s = "" <;> simp [hs, ih]
    all_goals exact ih

theorem textFallback_eq_claim (t : JValue) : textFallback t = some (claimTextResult t) := by
  cases t <;> simp [textFallback, claimTextResult]
  case str s =>
    by_cases h1 : s = ""
    · simp [h1]
    · by_cases h2 : pyStrip s = "" <;> simp [h1, h2]

theorem extractFromContent_passes (c : PyDict)
    (h : ctypePasses (pyGet c "content_type") = true) :
    extractFromContent c = Except.ok (extractPartsText c) := by
  unfold ctypePasses at h
  unfold extractFromContent
  cases hct : pyGet c "content_type" <;> rw [hct] at h <;> simp only []
  case bool b =>
    cases b
    · rfl
    · simp at h
  case num n => simp at h; simp [h]
  case arr xs => simp at h; simp [h]
  case obj fs => simp at h; simp [h]
  case str s =>
    by_cases hs : s = ""
    · simp [hs]
    · simp [hs] at h
      simp [ALLOWED_CONTENT_TYPES] at h
      rcases h with h | h | h | h | h <;> subst h <;>
        simp [SILENT_SKIP_TYPES, ALLOWED_CONTENT_TYPES]


/-- C5 (amended): for a message whose content_type reaches the extraction
step: a `parts` field holding a non-null, non-sequence value, or an empty
sequence, gives a skip signal; a non-empty sequence gives the first string
element with non-whitespace content, trimmed, or a skip signal when none
qualifies; a `parts` field that is absent or null falls back to `text`: the
trimmed value when it is a non-empty string, else the empty string.  The
original claim made a present-but-null `parts` a skip, but `dict.get` cannot
distinguish a stored null from an absent key, so the code falls back to
`text`. -/
theorem C5_theorem (m : PyDict) (c : PyDict)
    (h1 : pyGetD m "content" (JValue.obj []) = JValue.obj c)
    (h2 : ctypePasses (pyGet c "content_type") = true) :
    (∀ xs : List JValue, pyGet c "parts" = JValue.arr xs → xs ≠ [] →
       extract_message_content m = Except.ok (claimFirstPart xs))
    ∧ (pyGet c "parts" = JValue.arr [] →
       extract_message_content m = Except.ok none)
    ∧ ((pyGet c "parts" ≠ JValue.null ∧ ∀ xs : List JValue, pyGet c "parts" ≠ JValue.arr xs) →
       extract_message_content m = Except.ok none)
    ∧ (pyGet c "parts" = JValue.null →
       extract_message_content m = Except.ok (some (claimTextResult (pyGet c "text")))) := by
  have he : extract_message_content m = Except.ok (extractPartsText c) := by
    rw [extract_content_obj m c h1]
    exact extractFromContent_passes c h2
  refine ⟨?_, ?_, ?_, ?_⟩
  · intro xs hxs hne
    rw [he]
    unfold extractPartsText
    rw [hxs]
    have hle : xs.isEmpty = false := by
      cases xs with
      | nil => exact absurd rfl hne
      | cons y ys => rfl
    simp [hle, firstStrPart_eq_claim]
  · intro hxs
    rw [he]
    unfold extractPartsText
    rw [hxs]
    rfl
  · rintro ⟨hnull, harr⟩
    rw [he]
    unfold extractPartsText
    cases hp : pyGet c "parts"
    case null => exact absurd hp hnull
    case arr xs => exact absurd hp (harr xs)
    all_goals rfl
  · intro hxs
    rw [he]
    unfold extractPartsText
    rw [hxs, textFallback_eq_claim]

/-- C5 is false as stated: a content dict whose `parts` key is present and
holds JSON null is not skipped; the extractor falls back to `text` and
returns a string. -/
theorem C5_counterexample :
    List.lookup "parts" nullPartsContent = some JValue.null
    ∧ extract_message_content nullPartsMsg = Except.ok (some "hi") := ⟨rfl, rfl⟩

/-- C5 witness: a parts sequence whose first qualifying element is its second
entry extracts to that element, trimmed. -/
theorem C5_witness :
    extract_message_content noTypeMsg =
      Except.ok (claimFirstPart [JValue.num 1, JValue.str "  hello "]) :=
  (C5_theorem noTypeMsg noTypeContent rfl rfl).1
    [JValue.num 1, JValue.str "  hello "] rfl (List.cons_ne_nil _ _)

theorem take_lstrip (l : List Char) :
    l.take (l.length - (pyLstrip l).length) = l.takeWhile pyIsSpaceChar := by
  unfold pyLstrip
  set tw := l.takeWhile pyIsSpaceChar with htw
  set dw := l.dropWhile pyIsSpaceChar with hdw
  have hl : tw ++ dw = l := List.takeWhile_append_dropWhile _ _
  have hlen : l.length = tw.length + dw.length := by
    rw [← hl, List.length_append]
  rw [hlen, Nat.add_sub_cancel, ← hl, List.take_left]

theorem hash_decomp (l : List Char) :
    List.replicate ((l.takeWhile (fun c => c == '#')).length + 1) '#' ++
      l.drop (l.takeWhile (fun c => c == '#')).length = '#' :: l := by
  set tw := l.takeWhile (fun c => c == '#') with htw
  have htw_rep : tw = List.replicate tw.length '#' := by
    apply List.eq_replicate_of_mem
    intro b hb
    have hbm := List.mem_takeWhile_imp (htw ▸ hb)
    simpa using hbm
  have hl : tw ++ l.dropWhile (fun c => c == '#') = l :=
    List.takeWhile_append_dropWhile _ _
  have hdrop : l.drop tw.length = l.dropWhile (fun c => c == '#') := by
    conv_lhs => rw [← hl]
    exact List.drop_left _ _
  calc List.replicate (tw.length + 1) '#' ++ l.drop tw.length
      = '#' :: (List.replicate tw.length '#' ++ l.drop tw.length) := by
        rw [List.replicate_succ, List.cons_append]
    _ = '#' :: (tw ++ l.dropWhile (fun c => c == '#')) := by
        rw [← htw_rep, hdrop]
    _ = '#' :: l := by rw [hl]

theorem adjustLine_heading (line : List Char) (h : (pyLstrip line).head? = some '#') :
    adjustLine line = line.takeWhile pyIsSpaceChar ++ '#' :: pyLstrip line := by
  simp only [adjustLine]
  rw [if_pos h, take_lstrip]
  congr 1
  exact hash_decomp (pyLstrip line)

theorem adjustLine_other (line : List Char) (h : ¬ (pyLstrip line).head? = some '#') :
    adjustLine line = line := by
  simp only [adjustLine]
  rw [if_neg h]

theorem adjust_headings_lines (text : List Char) (h : text ≠ []) :
    adjust_headings text = joinNl ((splitOnNl text).map adjustLine) := by
  cases text with
  | nil => exact absurd rfl h
  | cons c rest => rfl

/-- C3 (amended): `adjust_headings` rewrites each heading line (first
non-space character `#`) to its leading whitespace, one extra `#`, then the
left-stripped line unchanged, and leaves non-heading lines untouched; the
string of three spaces then `### x` becomes three spaces then `#### x`,
leading whitespace preserved exactly.  The original claim asserted the output
has four leading spaces, which contradicts whitespace preservation and is not
what the code produces. -/
theorem C3_theorem :
    adjustHeadingsStr "## Title" = "### Title"
    ∧ adjustHeadingsStr "   ### x" = "   #### x"
    ∧ (∀ text : List Char, text ≠ [] →
        adjust_headings text = joinNl ((splitOnNl text).map adjustLine))
    ∧ (∀ line : List Char, (pyLstrip line).head? = some '#' →
        adjustLine line = line.takeWhile pyIsSpaceChar ++ '#' :: pyLstrip line)
    ∧ (∀ line : List Char, (pyLstrip line).head? ≠ some '#' → adjustLine line = line) :=
  ⟨by decide, by decide, adjust_headings_lines, adjustLine_heading, adjustLine_other⟩

/-- C3 is false as stated: on the example line with three leading spaces the
output keeps exactly three leading spaces, not four. -/
theorem C3_counterexample :
    adjustHeadingsStr "   ### x" ≠ "    #### x"
    ∧ adjustHeadingsStr "   ### x" = "   #### x" := ⟨by decide, by decide⟩

/-- C3 witness: the per-line rules evaluated on concrete lines. -/
theorem C3_witness :
    adjust_headings " # a".data = joinNl ((splitOnNl " # a".data).map adjustLine)
    ∧ adjustLine " # a".data = " # a".data.takeWhile pyIsSpaceChar ++ '#' :: pyLstrip " # a".data
    ∧ adjustLine "abc".data = "abc".data :=
  ⟨C3_theorem.2.2.1 _ (by decide), C3_theorem.2.2.2.1 _ (by decide),
   C3_theorem.2.2.2.2 _ (by decide)⟩


theorem flatPairs_length (ps : List (Entry × Entry)) :
    (flatPairs ps).length = 2 * ps.length := by
  induction ps with
  | nil => rfl
  | cons p rest ih =>
    cases p with
    | mk u a => simp [flatPairs, ih]; omega

theorem flatPairs_no_assist (ps : List (Entry × Entry))
    (h : ∀ p ∈ ps, p.1.role = "user" ∧ p.2.role = "assistant") :
    (flatPairs ps).takeWhile (fun e => e.role == "assistant") = []
    ∧ (flatPairs ps).dropWhile (fun e => e.role == "assistant") = flatPairs ps := by
  cases ps with
  | nil => exact ⟨rfl, rfl⟩
  | cons p rest =>
    cases p with
    | mk u a =>
      have hu : u.role = "user" := (h (u, a) (by simp)).1
      constructor
      · simp [flatPairs, List.takeWhile_cons, hu]
      · simp [flatPairs, List.dropWhile_cons, hu]

theorem partitionTurnsAux_flat (ps : List (Entry × Entry)) :
    ∀ (k fuel : Nat), (flatPairs ps).length ≤ fuel →
    (∀ p ∈ ps, p.1.role = "user" ∧ p.2.role = "assistant") →
    partitionTurnsAux fuel (flatPairs ps) k = expectedTurns ps k := by
  induction ps with
  | nil =>
    intro k fuel _ _
    cases fuel <;> rfl
  | cons p rest ih =>
    intro k fuel hf hroles
    cases p with
    | mk u a =>
      have hu : u.role = "user" := (hroles (u, a) (by simp)).1
      have ha : a.role = "assistant" := (hroles (u, a) (by simp)).2
      have hrest : ∀ p ∈ rest, p.1.role = "user" ∧ p.2.role = "assistant" :=
        fun q hq => hroles q (by simp [hq])
      have hlen : (flatPairs rest).length + 2 ≤ fuel := by
        simpa [flatPairs] using hf
      cases fuel with
      | zero => omega
      | succ fuel =>
        have hno := flatPairs_no_assist rest hrest
        show partitionTurnsAux (fuel + 1) (u :: a :: flatPairs rest) k = _
        simp only [partitionTurnsAux, hu, List.takeWhile_cons, List.dropWhile_cons, ha,
          expectedTurns, hno.1, hno.2, beq_self_eq_true, if_true]
        exact congrArg _ (ih (k + 1) fuel (by omega) hrest)


theorem partitionTurnsAux_skip (pre : List Entry) :
    ∀ (msgs : List Entry) (k : Nat), (∀ m ∈ pre, m.role = "assistant") →
    partitionTurnsAux (pre.length + msgs.length) (pre ++ msgs) k =
      partitionTurnsAux msgs.length msgs k := by
  induction pre with
  | nil => intro msgs k _; simp
  | cons m pre ih =>
    intro msgs k h
    have hm : m.role = "assistant" := h m (by simp)
    have hpre : ∀ x ∈ pre, x.role = "assistant" := fun x hx => h x (by simp [hx])
    have hlen : (m :: pre).length + msgs.length = (pre.length + msgs.length) + 1 := by
      simp; omega
    rw [hlen]
    show partitionTurnsAux ((pre.length + msgs.length) + 1) (m :: (pre ++ msgs)) k = _
    simp only [partitionTurnsAux, hm]
    simp only [show (("assistant" : String) == "user") = false from rfl, Bool.false_eq_true,
      if_false]
    exact ih msgs k hpre

theorem expectedTurns_numbers (ps : List (Entry × Entry)) :
    ∀ k, (expectedTurns ps k).map (fun t => t.turn_number) = List.range' k ps.length := by
  induction ps with
  | nil => intro k; rfl
  | cons p rest ih =>
    intro k
    cases p with
    | mk u a =>
      simp only [expectedTurns, List.map_cons, List.length_cons, List.range'_succ]
      exact congrArg _ (ih (k + 1))

theorem expectedTurns_assistants (ps : List (Entry × Entry)) :
    ∀ k t, t ∈ expectedTurns ps k → t.assistants.length = 1 := by
  induction ps with
  | nil => intro k t ht; cases ht
  | cons p rest ih =>
    intro k t ht
    cases p with
    | mk u a =>
      rcases List.mem_cons.mp ht with h | h
      · subst h; rfl
      · exact ih (k + 1) t h

/-- C6: a flattened message list that strictly alternates user, assistant
(n pairs) partitions into Turns numbered 0..n-1, in order, each holding
exactly one user message and exactly one assistant branch; and assistant
entries before the first user entry appear in no Turn. -/
theorem C6_theorem :
    (∀ ps : List (Entry × Entry),
      (∀ p ∈ ps, p.1.role = "user" ∧ p.2.role = "assistant") →
      partitionTurns (flatPairs ps) = expectedTurns ps 0
      ∧ (partitionTurns (flatPairs ps)).map (fun t => t.turn_number) = List.range ps.length
      ∧ ∀ t ∈ partitionTurns (flatPairs ps), t.assistants.length = 1)
    ∧ (∀ pre msgs : List Entry, (∀ m ∈ pre, m.role = "assistant") →
      partitionTurns (pre ++ msgs) = partitionTurns msgs) := by
  constructor
  · intro ps h
    have h0 : partitionTurns (flatPairs ps) = expectedTurns ps 0 :=
      partitionTurnsAux_flat ps 0 (flatPairs ps).length le_rfl h
    refine ⟨h0, ?_, ?_⟩
    · rw [h0, expectedTurns_numbers ps 0, List.range_eq_range']
    · intro t ht
      rw [h0] at ht
      exact expectedTurns_assistants ps 0 t ht
  · intro pre msgs h
    unfold partitionTurns
    rw [List.length_append]
    exact partitionTurnsAux_skip pre msgs 0 h

/-- C6 witness: one user/assistant pair, and one leading assistant entry
before a user entry. -/
theorem C6_witness :
    (partitionTurns (flatPairs [(uEntry, aEntry)]) = expectedTurns [(uEntry, aEntry)] 0
     ∧ (partitionTurns (flatPairs [(uEntry, aEntry)])).map (fun t => t.turn_number) =
         List.range 1
     ∧ ∀ t ∈ partitionTurns (flatPairs [(uEntry, aEntry)]), t.assistants.length = 1)
    ∧ partitionTurns ([aEntry] ++ [uEntry]) = partitionTurns [uEntry] :=
  ⟨C6_theorem.1 [(uEntry, aEntry)] (by decide),
   C6_theorem.2 [aEntry] [uEntry] (by decide)⟩

/-- C1 (amended): a node mapping with zero parentless nodes yields an empty Turn
sequence.  The original claim also covered mappings with more than one
parentless node, but there `build_turns` uses the first parentless node in
mapping order as the root and can return a non-empty sequence. -/
theorem C1_theorem (mapping : List (String × Node))
    (h : ∀ p ∈ mapping, p.2.parent ≠ none) :
    build_turns mapping = Except.ok [] := by
  have hf : mapping.find? (fun p => p.2.parent.isNone) = none := by
    rw [List.find?_eq_none]
    intro x hx
    simpa [Option.isNone_iff_eq_none] using h x hx
  unfold build_turns rootId
  rw [hf]
  rfl

/-- C1 is false as stated: `twoRootsMapping` has two parentless nodes, yet
`build_turns` returns one Turn, not an empty sequence. -/
theorem C1_counterexample :
    (twoRootsMapping.filter (fun p => p.2.parent.isNone)).length = 2
    ∧ (build_turns twoRootsMapping).map List.length = Except.ok 1 := ⟨rfl, rfl⟩

/-- C1 witness: a mapping whose only node has a parent produces no Turns. -/
theorem C1_witness : build_turns noRootMapping = Except.ok [] :=
  C1_theorem noRootMapping (by decide)

/-- C9: when the Turn Builder yields no Turns the conversion is a soft
failure: the assembler returns the no-document signal (a warning is printed,
the empty string returned, no output file written) and raises nothing. -/
theorem C9_theorem (record : ConvRecord)
    (h : build_turns record.mapping = Except.ok []) :
    generate_markdown_core record = Except.ok none := by
  unfold generate_markdown_core
  rw [h]
  rfl

/-- C9 witness: a record with an empty mapping converts to no document. -/
theorem C9_witness : generate_markdown_core emptyRecord = Except.ok none :=
  C9_theorem emptyRecord rfl


theorem durationDays_none_left (l : Option Int) : durationDays none l = 0 := rfl

theorem durationDays_none_right (f : Option Int) : durationDays f none = 0 := by
  cases f <;> rfl

theorem durationDays_zero_left (l : Option Int) : durationDays (some 0) l = 0 := by
  cases l with
  | none => rfl
  | some x => simp [durationDays]

theorem durationDays_zero_right (f : Option Int) : durationDays f (some 0) = 0 := by
  cases f with
  | none => rfl
  | some x => simp [durationDays]

theorem durationDays_truthy (f l : Int) (hf : f ≠ 0) (hl : l ≠ 0) :
    durationDays (some f) (some l) = Int.tdiv (l - f) 86400 := by
  simp [durationDays, hf, hl]

theorem core_inversion (record : ConvRecord) (doc : DocModel)
    (hc : generate_markdown_core record = Except.ok (some doc)) :
    ∃ turns, build_turns record.mapping = Except.ok turns
      ∧ turns.isEmpty = false
      ∧ doc = { title := record.title
                first_message_time := record.create_time
                last_message_time := lastMessageTime turns
                duration_days := durationDays record.create_time (lastMessageTime turns)
                turn_count := turnCount turns
                turns := turns
                body := renderedTurns turns } := by
  unfold generate_markdown_core at hc
  split at hc
  · cases hc
  next turns heq =>
    split at hc
    · cases hc
    next hne =>
      refine ⟨turns, heq, by simpa using hne, ?_⟩
      exact (Option.some.inj (Except.ok.inj hc)).symm

theorem lastMessageTime_eq (turns : List Turn) (t : Turn) (h : turns.getLast? = some t) :
    lastMessageTime turns =
      (match t.assistants.getLast? with
       | some a => msgCreateTime a.message
       | none => msgCreateTime t.user.message) := by
  have hrev : turns.reverse.head? = some t := by
    rw [List.head?_reverse]
    exact h
  unfold lastMessageTime
  split
  next hnil => rw [hnil] at hrev; cases hrev
  next t0 rest hr =>
    rw [hr] at hrev
    have ht0 : t0 = t := by simpa using hrev
    subst ht0
    split
    next a as ha =>
      have hg : t0.assistants.getLast? = some a := by
        rw [← List.head?_reverse, ha]
        rfl
      rw [hg]
    next ha =>
      have hg : t0.assistants.getLast? = none := by
        rw [← List.head?_reverse, ha]
        rfl
      rw [hg]

/-- C7: the derived last_message_time equals the create_time of the final
assistant branch entry of the final Turn when that Turn has at least one
assistant branch, and equals the final Turn user message create_time when it
has none. -/
theorem C7_theorem (record : ConvRecord) (doc : DocModel) (t : Turn)
    (hc : generate_markdown_core record = Except.ok (some doc))
    (ht : doc.turns.getLast? = some t) :
    (∀ a, t.assistants.getLast? = some a →
        doc.last_message_time = msgCreateTime a.message)
    ∧ (t.assistants = [] → doc.last_message_time = msgCreateTime t.user.message) := by
  obtain ⟨turns, hb, hne, hdoc⟩ := core_inversion record doc hc
  have hturns : doc.turns = turns := by rw [hdoc]
  have hlm : doc.last_message_time = lastMessageTime turns := by rw [hdoc]
  rw [hturns] at ht
  have hmain := lastMessageTime_eq turns t ht
  constructor
  · intro a hga
    rw [hlm, hmain, hga]
  · intro hnil
    rw [hlm, hmain, hnil]
    rfl

/-- C7 witness: for recordTest the derived last_message_time is the assistant
branch create_time. -/
theorem C7_witness :
    (getDoc recordTest).last_message_time = msgCreateTime aTest.message :=
  (C7_theorem recordTest (getDoc recordTest) tTest rfl rfl).1 aTest rfl

/-- C8: the metadata turn-count equals the number of Turns whose turn_number
is strictly greater than 0; a conversion producing exactly one Turn numbered
0 with non-skip content still renders that Turn in the body while reporting
turn-count 0. -/
theorem C8_theorem (record : ConvRecord) (doc : DocModel)
    (hc : generate_markdown_core record = Except.ok (some doc)) :
    doc.turn_count = (doc.turns.filter (fun t => decide (t.turn_number > 0))).length
    ∧ (∀ t : Turn, doc.turns = [t] → t.turn_number = 0 →
        extract_message_content t.user.message ≠ Except.ok none →
        doc.body = [t] ∧ doc.turn_count = 0) := by
  obtain ⟨turns, hb, hne, hdoc⟩ := core_inversion record doc hc
  have hturns : doc.turns = turns := by rw [hdoc]
  have hcount : doc.turn_count = turnCount turns := by rw [hdoc]
  have hbody : doc.body = renderedTurns turns := by rw [hdoc]
  constructor
  · rw [hcount, hturns]
    rfl
  · intro t ht h0 hskip
    rw [hturns] at ht
    constructor
    · rw [hbody, ht]
      have hg : renderGate t = true := by
        unfold renderGate
        rw [if_pos h0]
        cases hx : extract_message_content t.user.message with
        | error e => rfl
        | ok o =>
          cases o with
          | none => exact absurd hx hskip
          | some s => rfl
      unfold renderedTurns
      simp [List.filter, hg]
    · rw [hcount, ht]
      unfold turnCount
      simp [List.filter, h0]

/-- C8 witness: recordTest produces one Turn numbered 0 with non-skip
content; it renders while turn-count is 0. -/
theorem C8_witness :
    (getDoc recordTest).body = [tTest] ∧ (getDoc recordTest).turn_count = 0 :=
  (C8_theorem recordTest (getDoc recordTest) rfl).2 tTest rfl rfl
    (fun h => Option.noConfusion (Except.ok.inj h))

theorem tdiv_eq_fdiv_of_nonneg (a b : Int) (ha : 0 ≤ a) (hb : 0 ≤ b) :
    a.tdiv b = a.fdiv b := by
  rw [Int.tdiv_eq_ediv ha hb, Int.fdiv_eq_ediv _ hb]

/-- C4 (amended): when both derived message times are present and nonzero,
duration-days is the truncation toward zero of (last - first) / 86400, which
agrees with the integer floor whenever first is at most last; when either
time is absent or zero, duration-days is 0.  The original claim fails in two
ways: a present timestamp equal to 0 is falsy in Python and yields duration
0, and `int()` truncates toward zero rather than flooring, which differs on a
negative span. -/
theorem C4_theorem (record : ConvRecord) (doc : DocModel)
    (hc : generate_markdown_core record = Except.ok (some doc)) :
    doc.duration_days = durationDays doc.first_message_time doc.last_message_time
    ∧ (∀ f l : Int, doc.first_message_time = some f → doc.last_message_time = some l →
        f ≠ 0 → l ≠ 0 → f ≤ l → doc.duration_days = Int.fdiv (l - f) 86400)
    ∧ (∀ f l : Int, doc.first_message_time = some f → doc.last_message_time = some l →
        f ≠ 0 → l ≠ 0 → doc.duration_days = Int.tdiv (l - f) 86400)
    ∧ ((doc.first_message_time = none ∨ doc.first_message_time = some 0
        ∨ doc.last_message_time = none ∨ doc.last_message_time = some 0) →
        doc.duration_days = 0) := by
  obtain ⟨turns, hb, hne, hdoc⟩ := core_inversion record doc hc
  have hfirst : doc.first_message_time = record.create_time := by rw [hdoc]
  have hlast : doc.last_message_time = lastMessageTime turns := by rw [hdoc]
  have hdur : doc.duration_days =
      durationDays record.create_time (lastMessageTime turns) := by rw [hdoc]
  have htd : ∀ f l : Int, doc.first_message_time = some f →
      doc.last_message_time = some l → f ≠ 0 → l ≠ 0 →
      doc.duration_days = Int.tdiv (l - f) 86400 := by
    intro f l hf hl hf0 hl0
    rw [hfirst] at hf
    rw [hlast] at hl
    rw [hdur, hf, hl]
    exact durationDays_truthy f l hf0 hl0
  refine ⟨?_, ?_, htd, ?_⟩
  · rw [hdur, hfirst, hlast]
  · intro f l hf hl hf0 hl0 hfl
    rw [htd f l hf hl hf0 hl0]
    exact tdiv_eq_fdiv_of_nonneg _ _ (by omega) (by omega)
  · intro hz
    rw [hdur]
    rcases hz with hz | hz | hz | hz
    · rw [hfirst] at hz
      rw [hz]
      exact durationDays_none_left _
    · rw [hfirst] at hz
      rw [hz]
      exact durationDays_zero_left _
    · rw [hlast] at hz
      rw [hz]
      exact durationDays_none_right _
    · rw [hlast] at hz
      rw [hz]
      exact durationDays_zero_right _

/-- C4 is false as stated: with both message times present (first 0, last
86400) the code reports duration-days 0 while the floor is 1, and with first
100, last 50 (both present and truthy) it reports 0 while the floor is -1. -/
theorem C4_counterexample :
    generate_markdown_core recordZeroStart = Except.ok (some (getDoc recordZeroStart))
    ∧ (getDoc recordZeroStart).first_message_time = some 0
    ∧ (getDoc recordZeroStart).last_message_time = some 86400
    ∧ (getDoc recordZeroStart).duration_days = 0
    ∧ Int.fdiv (86400 - 0) 86400 = 1
    ∧ generate_markdown_core recordBackwards = Except.ok (some (getDoc recordBackwards))
    ∧ (getDoc recordBackwards).first_message_time = some 100
    ∧ (getDoc recordBackwards).last_message_time = some 50
    ∧ (getDoc recordBackwards).duration_days = 0
    ∧ Int.fdiv (50 - 100) 86400 = -1 :=
  ⟨rfl, rfl, rfl, rfl, by decide, rfl, rfl, rfl, rfl, by decide⟩

/-- C4 witness: the conversation of recordTest has duration-days equal to the
floor of its 100-second span over 86400. -/
theorem C4_witness :
    (getDoc recordTest).duration_days = Int.fdiv (1100 - 1000) 86400 :=
  (C4_theorem recordTest (getDoc recordTest) rfl).2.1 1000 1100 rfl rfl
    (by decide) (by decide) (by decide)

end ToMarkdown
